import Mathlib

/-!
Shallow embedding of the `don_controller` multi-zone heating supervisor
(`custom_components/don_controller/zone_wrapper.py` and
`custom_components/don_controller/master_controller.py`, plus the platform
setup guard in `climate.py`).

Python floats are modelled as exact rationals (`ℚ`); the Home Assistant
state objects are modelled as records of optional raw attribute values, so
that the `float(attrs.get(key, 0.0))` parse-or-discard step of the source is
represented faithfully (a missing attribute defaults to `0.0`, a present but
non-numeric attribute raises and causes the observation to be discarded).
The wall clock (`time.time()`) is passed as an explicit parameter.
-/

namespace DonController

/-- PID proportional gain (`KP = 0.5` in `zone_wrapper.py`). -/
def KP : ℚ := 0.5

/-- PID integral gain (`KI = 0.01` in `zone_wrapper.py`). -/
def KI : ℚ := 0.01

/-- PID derivative gain (`KD = 0.1` in `zone_wrapper.py`). -/
def KD : ℚ := 0.1

/-- Boiler-off flow temperature (`MIN_FLOW_TEMP = 5.0` in `master_controller.py`). -/
def MIN_FLOW_TEMP : ℚ := 5

/-- Maximum boiler flow temperature (`MAX_FLOW_TEMP = 80.0` in `master_controller.py`). -/
def MAX_FLOW_TEMP : ℚ := 80

/-- The mutable state of one `ZoneWrapper` (fields of `ZoneWrapper.__init__`). -/
structure ZoneWrapper where
  entity_id : String
  name : String
  floor_area_m2 : ℚ
  priority : ℚ
  trv_entity_id : Option String
  current_error : ℚ
  pid_integral_sum : ℚ
  last_error : ℚ
  last_update_time : ℚ
  is_demanding_heat : Bool
  target_temp : ℚ
  last_target_temp : ℚ
  current_temp : ℚ
  trv_opening_percent : ℚ
  last_pid_output : ℚ
  last_pid_p : ℚ
  last_pid_i : ℚ
  last_pid_d : ℚ
deriving DecidableEq

/-- `ZoneWrapper.__init__`: static configuration plus the zeroed runtime state;
`priority` is clamped to `[0, 1]` on construction. -/
def ZoneWrapper.init (entity_id name : String) (floor_area_m2 priority : ℚ)
    (trv_entity_id : Option String) : ZoneWrapper :=
  { entity_id := entity_id
    name := name
    floor_area_m2 := floor_area_m2
    priority := max 0 (min 1 priority)
    trv_entity_id := trv_entity_id
    current_error := 0
    pid_integral_sum := 0
    last_error := 0
    last_update_time := 0
    is_demanding_heat := false
    target_temp := 0
    last_target_temp := 0
    current_temp := 0
    trv_opening_percent := 100
    last_pid_output := 0
    last_pid_p := 0
    last_pid_i := 0
    last_pid_d := 0 }

/-- A raw attribute value as seen by `float(...)`: either a value that parses
to a number, or one (non-numeric string, `None`, ...) on which `float` raises
`ValueError`/`TypeError`. -/
inductive RawValue where
  | num (q : ℚ)
  | junk
deriving DecidableEq

/-- A Home Assistant climate state object, reduced to the attributes that
`ZoneWrapper.update_from_state` reads; `none` means the attribute is absent
from the attributes dictionary. -/
structure RawState where
  current_temperature : Option RawValue
  temperature : Option RawValue
  hvac_action : Option String
deriving DecidableEq

/-- `float(new_state.attributes.get(key, 0.0))`: a missing attribute defaults
to `0.0` (which parses), a present numeric value parses to itself, and a
present non-numeric value raises (modelled as `none`). -/
def parseTemp : Option RawValue → Option ℚ
  | none => some 0
  | some (RawValue.num q) => some q
  | some RawValue.junk => none

/-- The successfully extracted fields of the `try` block of
`update_from_state` (lines 194–201 of `zone_wrapper.py`). -/
structure ParsedObs where
  current_temp : ℚ
  target_temp : ℚ
  hvac_action : String
deriving DecidableEq

/-- The `try` block of `update_from_state`: both temperatures must parse or
the whole observation is discarded; `hvac_action` defaults to `"off"`. -/
def parseObservation (s : RawState) : Option ParsedObs :=
  match parseTemp s.current_temperature, parseTemp s.temperature with
  | some c, some t => some ⟨c, t, s.hvac_action.getD "off"⟩
  | _, _ => none

/-- `time_delta = time_now - self.last_update_time if self.last_update_time
else 0` (the same expression appears in `update_from_state` and in the
supervisor's winner-selection loop). -/
def timeDelta (time_now : ℚ) (z : ZoneWrapper) : ℚ :=
  if z.last_update_time ≠ 0 then time_now - z.last_update_time else 0

/-- Lines 203–221 of `update_from_state`: store `current_temp`, perform the
setpoint-change reset (`target_temp != last_target_temp and last_target_temp
> 0` resets the integral and `last_error`), then record the new target and
the heating-demand flag. -/
def applySetpointPhase (z : ZoneWrapper) (o : ParsedObs) : ZoneWrapper :=
  let z1 := { z with current_temp := o.current_temp }
  let z2 :=
    if o.target_temp ≠ z1.last_target_temp ∧ 0 < z1.last_target_temp then
      { z1 with pid_integral_sum := 0, last_error := 0 }
    else z1
  { z2 with
    target_temp := o.target_temp
    last_target_temp := o.target_temp
    is_demanding_heat := (o.hvac_action == "heating") }

/-- Lines 223–263 of `update_from_state`: compute the new error and the time
delta; when the zone is demanding heat, accumulate the integral (clamped to
`[-10000, 10000]`) and capture the previous error for the derivative term;
unconditionally store the new error and the update timestamp. -/
def applyPidPhase (z : ZoneWrapper) (o : ParsedObs) (time_now : ℚ) : ZoneWrapper :=
  let new_error := o.target_temp - o.current_temp
  let td := timeDelta time_now z
  let z1 :=
    if z.is_demanding_heat then
      { z with
        pid_integral_sum :=
          max (-10000) (min 10000 (z.pid_integral_sum + new_error * td))
        last_error := z.current_error }
    else z
  { z1 with current_error := new_error, last_update_time := time_now }

/-- `ZoneWrapper.update_from_state`: parse the observation (discarding it
with no state change when a temperature fails to parse) and then run the
setpoint and PID phases in the source's statement order. -/
def ZoneWrapper.update_from_state (z : ZoneWrapper) (s : RawState)
    (time_now : ℚ) : ZoneWrapper :=
  match parseObservation s with
  | none => z
  | some o => applyPidPhase (applySetpointPhase z o) o time_now

/-- `ZoneWrapper.get_demand_metric`: zero unless the zone is demanding heat
with positive error; the error is boosted by `100 / trv_opening_percent`
when the valve opening lies strictly between 0 and 100. -/
def ZoneWrapper.get_demand_metric (z : ZoneWrapper) : ℚ :=
  if ¬ z.is_demanding_heat ∨ z.current_error ≤ 0 then 0
  else
    let demand := z.current_error
    if z.trv_opening_percent < 100 ∧ 0 < z.trv_opening_percent then
      demand * (100 / z.trv_opening_percent)
    else demand

/-- `ZoneWrapper.calculate_pid_output`: returns `P + I + D` and the state
with the exported component fields updated. -/
def ZoneWrapper.calculate_pid_output (z : ZoneWrapper) (time_delta : ℚ) :
    ℚ × ZoneWrapper :=
  let P := z.current_error * KP
  let I := z.pid_integral_sum * KI
  let D := if 0 < time_delta
    then ((z.current_error - z.last_error) / time_delta) * KD
    else 0
  let pid_output := P + I + D
  (pid_output,
    { z with
      last_pid_p := P
      last_pid_i := I
      last_pid_d := D
      last_pid_output := pid_output })

/-- `ZoneWrapper.update_trv_opening`: when the reported opening differs from
the stored one, store it clamped to `[0, 100]`. -/
def ZoneWrapper.update_trv_opening (z : ZoneWrapper) (opening_percent : ℚ) :
    ZoneWrapper :=
  if opening_percent ≠ z.trv_opening_percent then
    { z with trv_opening_percent := max 0 (min 100 opening_percent) }
  else z

/-- One entry of the `zone_configs` list consumed by
`MasterController.__init__` (optional keys model `config.get(...)`). -/
structure ZoneConfig where
  entity_id : String
  name : Option String
  area : Option ℚ
  priority : Option ℚ
  trv_entity_id : Option String
deriving DecidableEq

/-- The `ZoneWrapper` built for one configuration entry by the constructor
loop of `MasterController.__init__`. -/
def mkZone (c : ZoneConfig) : ZoneWrapper :=
  ZoneWrapper.init c.entity_id (c.name.getD c.entity_id) (c.area.getD 0)
    (c.priority.getD 1) c.trv_entity_id

/-- `self.zones[entity_id] = ...` on an insertion-ordered dict keyed by
`entity_id`: replace the existing entry in place, else append. -/
def dictInsert (zones : List ZoneWrapper) (z : ZoneWrapper) :
    List ZoneWrapper :=
  if zones.any (fun w => w.entity_id == z.entity_id) then
    zones.map (fun w => if w.entity_id == z.entity_id then z else w)
  else zones ++ [z]

/-- The supervisor state: the insertion-ordered zone map (keys are the
zones' `entity_id`s) and the monitored-entity list. -/
structure MasterController where
  zones : List ZoneWrapper
  monitored_entity_ids : List String
deriving DecidableEq

/-- `MasterController.__init__`: one `ZoneWrapper` per configuration entry,
inserted into the dict keyed by `entity_id`; the monitored list is the zone
ids followed by the configured TRV ids. -/
def MasterController.init (zone_configs : List ZoneConfig) : MasterController :=
  let zones : List ZoneWrapper :=
    zone_configs.foldl (fun zs c => dictInsert zs (mkZone c)) []
  { zones := zones
    monitored_entity_ids :=
      zones.map (fun z => z.entity_id) ++ zones.filterMap (fun z => z.trv_entity_id) }

/-- The guard of `async_setup_platform` in `climate.py`: an empty
`zone_configs` list is rejected (the controller is never constructed). -/
def setupPlatform (zone_configs : List ZoneConfig) : Option MasterController :=
  if zone_configs.isEmpty then none
  else some (MasterController.init zone_configs)

/-- Step 1 of `_calculate_and_command`: the currently-demanding zones with
`priority > 0.5`, in iteration (insertion) order. -/
def highPriorityZones (m : MasterController) : List ZoneWrapper :=
  m.zones.filter (fun z => z.is_demanding_heat && decide ((1 : ℚ)/2 < z.priority))

/-- Step 1 of `_calculate_and_command`: the currently-demanding zones with
`priority <= 0.5`, in iteration (insertion) order. -/
def lowPriorityZones (m : MasterController) : List ZoneWrapper :=
  m.zones.filter (fun z => z.is_demanding_heat && ! decide ((1 : ℚ)/2 < z.priority))

/-- Step 2 of `_calculate_and_command`: all high-priority demanding zones
are eligible; the low-priority demanding zones are appended only when at
least 2 of them are demanding. -/
def boilerDemandEligible (m : MasterController) : List ZoneWrapper :=
  if 2 ≤ (lowPriorityZones m).length then
    highPriorityZones m ++ lowPriorityZones m
  else highPriorityZones m

/-- The accumulator of the winner-selection loop of
`_calculate_and_command` (step 3). -/
structure MaxState where
  max_demand_zone : Option ZoneWrapper
  max_demand : ℚ
  time_delta : ℚ
deriving DecidableEq

/-- The winner-selection loop body: a zone replaces the current winner only
when its demand metric is strictly greater than the running maximum; the
winner's time delta is captured at that moment. -/
def findMaxGo (now : ℚ) : List ZoneWrapper → MaxState → MaxState
  | [], st => st
  | z :: rest, st =>
    findMaxGo now rest
      (if st.max_demand < z.get_demand_metric then
        ⟨some z, z.get_demand_metric, timeDelta now z⟩
      else st)

/-- Step 3 of `_calculate_and_command`: scan the eligible zones starting
from `max_demand = 0.0` and no winner. -/
def findMax (now : ℚ) (eligible : List ZoneWrapper) : MaxState :=
  findMaxGo now eligible ⟨none, 0, 0⟩

/-- `async_set_opentherm_flow_temp`: the commanded value is clamped to
`[MIN_FLOW_TEMP, MAX_FLOW_TEMP]` before being written to the actuator
entity; the returned value is the emitted (final) value. -/
def setOpenthermFlowTemp (flow_temp : ℚ) : ℚ :=
  max MIN_FLOW_TEMP (min MAX_FLOW_TEMP flow_temp)

/-- Steps 3–5 of `_calculate_and_command`: select the winner among the
eligible zones; with a winner, emit `clamp(40.0 + pid_output)` and store the
winner's exported PID components back into the zone map; with no winner,
emit `MIN_FLOW_TEMP`. Returns the emitted flow temperature and the updated
supervisor state. -/
def MasterController.calculate_and_command (m : MasterController) (now : ℚ) :
    ℚ × MasterController :=
  let st := findMax now (boilerDemandEligible m)
  match st.max_demand_zone with
  | some winner =>
    let r := winner.calculate_pid_output st.time_delta
    let required_flow_temp :=
      max MIN_FLOW_TEMP (min MAX_FLOW_TEMP (40 + r.1))
    (setOpenthermFlowTemp required_flow_temp,
      { m with
        zones := m.zones.map
          (fun z => if z.entity_id == winner.entity_id then r.2 else z) })
  | none => (setOpenthermFlowTemp MIN_FLOW_TEMP, m)

/-- The climate-entity branch of `_async_hvac_demand_change`: route the new
state to the matching zone's `update_from_state`, then unconditionally
recompute and command the boiler. -/
def MasterController.handleClimateEvent (m : MasterController)
    (entity_id : String) (s : RawState) (now : ℚ) : ℚ × MasterController :=
  let m1 : MasterController := { m with
    zones := m.zones.map
      (fun z => if z.entity_id == entity_id then z.update_from_state s now else z) }
  m1.calculate_and_command now

/-- One operation on a single zone, for stating state invariants over
arbitrary operation sequences. -/
inductive ZoneOp where
  | observe (s : RawState) (now : ℚ)
  | trv (opening_percent : ℚ)
  | pid (time_delta : ℚ)
deriving DecidableEq

/-- Apply one `ZoneOp` to a zone state. -/
def applyOp (z : ZoneWrapper) (op : ZoneOp) : ZoneWrapper :=
  match op with
  | ZoneOp.observe s now => z.update_from_state s now
  | ZoneOp.trv p => z.update_trv_opening p
  | ZoneOp.pid td => (z.calculate_pid_output td).2

/-- The winner-selection invariant: the running maximum is nonnegative, and
whenever a winner is recorded, the running maximum is the winner's (strictly
positive) demand metric and the recorded time delta is the winner's. -/
def maxStateOk (now : ℚ) (st : MaxState) : Prop :=
  0 ≤ st.max_demand ∧
    ∀ w, st.max_demand_zone = some w →
      st.max_demand = w.get_demand_metric ∧ 0 < w.get_demand_metric ∧
        st.time_delta = timeDelta now w

/-! ### Concrete states used by the witnesses and counterexamples -/

/-- A zone demanding heat with error 3 °C and a half-open TRV valve. -/
def c3zone : ZoneWrapper :=
  { ZoneWrapper.init "climate.z3" "Z3" 0 1 none with
    is_demanding_heat := true, current_error := 3, trv_opening_percent := 50 }

/-- Zone used for the C9 exactness instance. -/
def c9zone : ZoneWrapper :=
  { ZoneWrapper.init "climate.z9" "Z9" 0 1 none with
    current_error := 2, last_error := 1, pid_integral_sum := 50 }

/-- A zone with a nonzero accumulated integral (pre-state for C4). -/
def c4zone : ZoneWrapper :=
  { ZoneWrapper.init "climate.z4" "Z4" 0 1 none with pid_integral_sum := 500 }

/-- First observation for the C4 counterexample: a well-formed observation
with a negative (non-initial) target temperature. -/
def c4obs1 : RawState := ⟨some (RawValue.num 10), some (RawValue.num (-5)), some "idle"⟩

/-- Second observation for the C4 counterexample: the target changes. -/
def c4obs2 : RawState := ⟨some (RawValue.num 10), some (RawValue.num 20), some "idle"⟩

/-- Pre-state for the C4 witness: a previously-set positive target. -/
def c4wzone : ZoneWrapper :=
  { ZoneWrapper.init "climate.z4w" "Z4W" 0 1 none with
    pid_integral_sum := 500, last_target_temp := 21, target_temp := 21,
    current_temp := 20, current_error := 1, last_update_time := 200 }

/-- Observation for the C4 witness: the setpoint moves from 21 °C to 23 °C. -/
def c4wobs : RawState :=
  ⟨some (RawValue.num 20), some (RawValue.num 23), some "heating"⟩

/-- The parse of `c4wobs`. -/
def c4wparsed : ParsedObs := ⟨20, 23, "heating"⟩

/-- A heating zone last updated at t = 1000 (pre-state for C5). -/
def c5zone : ZoneWrapper :=
  { ZoneWrapper.init "climate.z5" "Z5" 0 1 none with
    is_demanding_heat := true, last_update_time := 1000,
    target_temp := 22, last_target_temp := 22, current_temp := 20,
    current_error := 2 }

/-- Observation applied to `c5zone` after the clock jumped backward. -/
def c5obs : RawState :=
  ⟨some (RawValue.num 20), some (RawValue.num 22), some "heating"⟩

/-- A zone whose stored room temperature is 18 °C (pre-state for C7). -/
def c7zone : ZoneWrapper :=
  { ZoneWrapper.init "climate.z7" "Z7" 0 1 none with
    current_temp := 18, target_temp := 21, last_target_temp := 21,
    current_error := 3 }

/-- An observation with the `current_temperature` attribute missing. -/
def c7obsMissing : RawState := ⟨none, some (RawValue.num 20), some "heating"⟩

/-- An observation whose `current_temperature` is present but unparsable. -/
def c7obsJunk : RawState := ⟨some RawValue.junk, some (RawValue.num 20), some "heating"⟩

/-- A supervisor holding just `c7zone`. -/
def c7m : MasterController :=
  { zones := [c7zone], monitored_entity_ids := ["climate.z7"] }

/-- A two-entry configuration with distinct entity ids (C8 witness). -/
def c8cfgs : List ZoneConfig :=
  [⟨"climate.a", some "A", none, none, none⟩,
   ⟨"climate.b", some "B", some 12, some (1/4), some "number.trv_b"⟩]

/-- A single demanding low-priority zone (C1 witness). -/
def c1zone : ZoneWrapper :=
  { ZoneWrapper.init "climate.l1" "L1" 0 (1/4) none with
    is_demanding_heat := true, current_error := 3 }

/-- A supervisor holding just the low-priority `c1zone`. -/
def c1m : MasterController :=
  { zones := [c1zone], monitored_entity_ids := ["climate.l1"] }

/-- A demanding high-priority zone with error 3 °C (C2 witness). -/
def c2zone : ZoneWrapper :=
  { ZoneWrapper.init "climate.h2" "H2" 0 1 none with
    is_demanding_heat := true, current_error := 3, target_temp := 21,
    last_target_temp := 21, current_temp := 18, last_update_time := 90 }

/-- A supervisor holding just `c2zone`. -/
def c2m : MasterController :=
  { zones := [c2zone], monitored_entity_ids := ["climate.h2"] }

/-- A zone reporting heating mode whose error is negative (C10 witness). -/
def c10zone : ZoneWrapper :=
  { ZoneWrapper.init "climate.h10" "H10" 0 1 none with
    is_demanding_heat := true, current_error := -1 }

/-- A supervisor holding just `c10zone`. -/
def c10m : MasterController :=
  { zones := [c10zone], monitored_entity_ids := ["climate.h10"] }

/-! ### Theorems -/

/-- The setpoint phase resets the integral exactly when the new target
differs from a strictly positive stored `last_target_temp`. -/
theorem applySetpointPhase_integral (z : ZoneWrapper) (o : ParsedObs) :
    (applySetpointPhase z o).pid_integral_sum =
      if o.target_temp ≠ z.last_target_temp ∧ 0 < z.last_target_temp then 0
      else z.pid_integral_sum := by
  by_cases h : o.target_temp ≠ z.last_target_temp ∧ 0 < z.last_target_temp <;>
    simp [applySetpointPhase, h]

/-- The setpoint phase resets `last_error` under the same condition. -/
theorem applySetpointPhase_last_error (z : ZoneWrapper) (o : ParsedObs) :
    (applySetpointPhase z o).last_error =
      if o.target_temp ≠ z.last_target_temp ∧ 0 < z.last_target_temp then 0
      else z.last_error := by
  by_cases h : o.target_temp ≠ z.last_target_temp ∧ 0 < z.last_target_temp <;>
    simp [applySetpointPhase, h]

/-- The setpoint phase sets the demand flag from the observed HVAC action. -/
theorem applySetpointPhase_demand (z : ZoneWrapper) (o : ParsedObs) :
    (applySetpointPhase z o).is_demanding_heat = (o.hvac_action == "heating") :=
  rfl

/-- The setpoint phase leaves the update timestamp unchanged. -/
theorem applySetpointPhase_time (z : ZoneWrapper) (o : ParsedObs) :
    (applySetpointPhase z o).last_update_time = z.last_update_time := by
  simp only [applySetpointPhase]
  split_ifs <;> rfl

/-- The PID phase's effect on the integral: clamped accumulation when the
zone is demanding heat, otherwise unchanged. -/
theorem applyPidPhase_integral (z : ZoneWrapper) (o : ParsedObs) (now : ℚ) :
    (applyPidPhase z o now).pid_integral_sum =
      if z.is_demanding_heat then
        max (-10000) (min 10000
          (z.pid_integral_sum + (o.target_temp - o.current_temp) * timeDelta now z))
      else z.pid_integral_sum := by
  by_cases h : z.is_demanding_heat = true <;> simp [applyPidPhase, h]

/-- C9: `pid_output(time_delta)` returns `current_error*Kp + integral_sum*Ki
+ D`, where `D = 0` when `time_delta ≤ 0` and `D = ((current_error -
last_error) / time_delta) * Kd` otherwise; at `current_error = 2`,
`last_error = 1`, `integral_sum = 50`, `time_delta = 10` the output is
exactly `1.51`. -/
theorem C9_pid_arithmetic :
    (∀ (z : ZoneWrapper) (td : ℚ),
      (z.calculate_pid_output td).1 =
        z.current_error * KP + z.pid_integral_sum * KI +
          (if td ≤ 0 then 0 else ((z.current_error - z.last_error) / td) * KD)) ∧
    (c9zone.calculate_pid_output 10).1 = 151/100 := by
  constructor
  · intro z td
    rcases le_or_lt td 0 with h | h
    · simp [ZoneWrapper.calculate_pid_output, not_lt.mpr h, h]
    · simp [ZoneWrapper.calculate_pid_output, h, not_le.mpr h]
  · norm_num [ZoneWrapper.calculate_pid_output, c9zone, ZoneWrapper.init,
      KP, KI, KD]

/-- C3: the demand metric is 0 when not demanding heat or the error is
nonpositive; otherwise it is the error boosted by `100 /
valve_opening_percent` exactly when the opening lies strictly between 0 and
100, and the raw error at openings 100 and 0; the priority never affects
it. -/
theorem C3_demand_metric (z : ZoneWrapper) :
    ((z.is_demanding_heat = false ∨ z.current_error ≤ 0) →
      z.get_demand_metric = 0) ∧
    (z.is_demanding_heat = true → 0 < z.current_error →
      0 < z.trv_opening_percent → z.trv_opening_percent < 100 →
      z.get_demand_metric = z.current_error * (100 / z.trv_opening_percent)) ∧
    (z.is_demanding_heat = true → 0 < z.current_error →
      (z.trv_opening_percent = 100 ∨ z.trv_opening_percent = 0) →
      z.get_demand_metric = z.current_error) ∧
    (∀ p : ℚ,
      ZoneWrapper.get_demand_metric { z with priority := p } =
        z.get_demand_metric) := by
  refine ⟨?_, ?_, ?_, ?_⟩
  · intro h
    rcases h with h | h <;> simp [ZoneWrapper.get_demand_metric, h]
  · intro hd he hlo hhi
    simp [ZoneWrapper.get_demand_metric, hd, not_le.mpr he, hlo, hhi]
  · intro hd he hv
    rcases hv with hv | hv <;>
      simp [ZoneWrapper.get_demand_metric, hd, not_le.mpr he, hv]
  · intro p
    rfl

/-- C3 witness: the boosted case evaluated at `c3zone` (error 3 °C, valve
50 % open) gives demand 6. -/
theorem C3_demand_metric_witness : c3zone.get_demand_metric = 6 := by
  have h :=
    (C3_demand_metric c3zone).2.1 rfl
      (by norm_num [c3zone, ZoneWrapper.init])
      (by norm_num [c3zone, ZoneWrapper.init])
      (by norm_num [c3zone, ZoneWrapper.init])
  rw [h]; norm_num [c3zone, ZoneWrapper.init]

/-- C5 (code behavior at the failing input): with the clock jumped backward
(`now = 900`, `last_update_time = 1000`, so `time_delta = -100`), applying
an observation with error 2 °C to a heating zone changes the integral sum
from 0 to -200 — the integral is *not* left unchanged — while the
derivative term of `calculate_pid_output` is 0 for the negative delta. -/
theorem C5_backward_clock_behavior :
    timeDelta 900 c5zone = -100 ∧
    c5zone.pid_integral_sum = 0 ∧
    (c5zone.update_from_state c5obs 900).pid_integral_sum = -200 ∧
    (c5zone.calculate_pid_output (-100)).2.last_pid_d = 0 := by
  refine ⟨?_, rfl, ?_, ?_⟩
  · norm_num [timeDelta, c5zone, ZoneWrapper.init]
  · norm_num [ZoneWrapper.update_from_state, parseObservation, parseTemp,
      c5obs, applySetpointPhase, applyPidPhase, timeDelta, c5zone,
      ZoneWrapper.init]
  · norm_num [ZoneWrapper.calculate_pid_output]

/-- C4 counterexample: with a previously-set target of −5 °C (well formed
and non-initial), a change of target to 20 °C does *not* reset the
integral: after the second observation the integral is still 500, although
that call contributed nothing (the zone is idle). The code's reset
condition requires `last_target_temp > 0`, not merely non-initial. -/
theorem C4_counterexample :
    (c4zone.update_from_state c4obs1 100).last_target_temp = -5 ∧
    (c4zone.update_from_state c4obs1 100).is_demanding_heat = false ∧
    ((c4zone.update_from_state c4obs1 100).update_from_state c4obs2 200).pid_integral_sum
      = 500 ∧
    (500 : ℚ) ≠ 0 := by
  have hs : (("idle" : String) == "heating") = false := by decide
  have hs' : ¬(("idle" : String) = "heating") := by decide
  have h1 : c4zone.update_from_state c4obs1 100 =
      { c4zone with
        current_temp := 10, target_temp := (-5 : ℚ),
        last_target_temp := (-5 : ℚ), is_demanding_heat := false,
        current_error := (-15 : ℚ), last_update_time := 100 } := by
    simp only [ZoneWrapper.update_from_state, parseObservation, parseTemp, c4obs1]
    norm_num [applySetpointPhase, applyPidPhase, timeDelta, c4zone,
      ZoneWrapper.init, hs, hs']
  rw [h1]
  refine ⟨rfl, rfl, ?_, by norm_num⟩
  simp only [ZoneWrapper.update_from_state, parseObservation, parseTemp, c4obs2]
  norm_num [applySetpointPhase, applyPidPhase, timeDelta, c4zone,
    ZoneWrapper.init, hs, hs']

/-- C4 (amended): when the new target differs from a previously-set
*strictly positive* `last_target_temp`, the setpoint phase zeroes
`integral_sum` and `last_error` before the same call's accumulation step,
so the integral left after the call is exactly that call's own clamped
contribution (and 0 when the zone is not heating). -/
theorem C4_setpoint_reset (z : ZoneWrapper) (s : RawState) (o : ParsedObs)
    (now : ℚ) (hp : parseObservation s = some o)
    (hne : o.target_temp ≠ z.last_target_temp)
    (hpos : 0 < z.last_target_temp) :
    (applySetpointPhase z o).pid_integral_sum = 0 ∧
    (applySetpointPhase z o).last_error = 0 ∧
    (z.update_from_state s now).pid_integral_sum =
      (if o.hvac_action == "heating" then
        max (-10000) (min 10000
          ((o.target_temp - o.current_temp) * timeDelta now z))
      else 0) := by
  have hc : o.target_temp ≠ z.last_target_temp ∧ 0 < z.last_target_temp :=
    ⟨hne, hpos⟩
  refine ⟨?_, ?_, ?_⟩
  · rw [applySetpointPhase_integral, if_pos hc]
  · rw [applySetpointPhase_last_error, if_pos hc]
  · have hu : z.update_from_state s now =
        applyPidPhase (applySetpointPhase z o) o now := by
      simp [ZoneWrapper.update_from_state, hp]
    rw [hu, applyPidPhase_integral, applySetpointPhase_demand,
      applySetpointPhase_integral, if_pos hc]
    have ht : timeDelta now (applySetpointPhase z o) = timeDelta now z := by
      simp [timeDelta, applySetpointPhase_time]
    rw [ht]
    by_cases hh : (o.hvac_action == "heating") = true <;> simp [hh]

/-- C4 witness: the amended reset behavior at a concrete setpoint change
from 21 °C to 23 °C on a zone with integral 500. -/
theorem C4_setpoint_reset_witness :
    (applySetpointPhase c4wzone c4wparsed).pid_integral_sum = 0 ∧
    (applySetpointPhase c4wzone c4wparsed).last_error = 0 ∧
    (c4wzone.update_from_state c4wobs 300).pid_integral_sum =
      (if c4wparsed.hvac_action == "heating" then
        max (-10000) (min 10000
          ((c4wparsed.target_temp - c4wparsed.current_temp) * timeDelta 300 c4wzone))
      else 0) :=
  C4_setpoint_reset c4wzone c4wobs c4wparsed 300 rfl
    (by norm_num [c4wparsed, c4wzone, ZoneWrapper.init])
    (by norm_num [c4wzone, ZoneWrapper.init])

/-- One step preserves the integral clamp bounds. -/
theorem applyOp_integral_bounds (z : ZoneWrapper) (op : ZoneOp)
    (h1 : -10000 ≤ z.pid_integral_sum) (h2 : z.pid_integral_sum ≤ 10000) :
    -10000 ≤ (applyOp z op).pid_integral_sum ∧
      (applyOp z op).pid_integral_sum ≤ 10000 := by
  cases op with
  | trv p =>
    simp only [applyOp, ZoneWrapper.update_trv_opening]
    split_ifs <;> exact ⟨h1, h2⟩
  | pid td =>
    simp only [applyOp, ZoneWrapper.calculate_pid_output]
    exact ⟨h1, h2⟩
  | observe s now =>
    simp only [applyOp]
    cases hp : parseObservation s with
    | none => simp only [ZoneWrapper.update_from_state, hp]; exact ⟨h1, h2⟩
    | some o =>
      have hu : z.update_from_state s now =
          applyPidPhase (applySetpointPhase z o) o now := by
        simp [ZoneWrapper.update_from_state, hp]
      rw [hu, applyPidPhase_integral]
      split_ifs with hd
      · refine ⟨le_max_left _ _, max_le (by norm_num) (min_le_left _ _)⟩
      · rw [applySetpointPhase_integral]
        split_ifs with hc
        · norm_num
        · exact ⟨h1, h2⟩

/-- C6: starting from a freshly constructed zone (integral 0), the integral
sum stays within `[-10000, 10000]` after any sequence of observations,
valve updates and PID computations. -/
theorem C6_integral_clamp_invariant (eid nm : String) (area p : ℚ)
    (trv : Option String) (ops : List ZoneOp) :
    -10000 ≤ (ops.foldl applyOp (ZoneWrapper.init eid nm area p trv)).pid_integral_sum ∧
      (ops.foldl applyOp (ZoneWrapper.init eid nm area p trv)).pid_integral_sum ≤ 10000 := by
  have key : ∀ (l : List ZoneOp) (z : ZoneWrapper),
      -10000 ≤ z.pid_integral_sum → z.pid_integral_sum ≤ 10000 →
      -10000 ≤ (l.foldl applyOp z).pid_integral_sum ∧
        (l.foldl applyOp z).pid_integral_sum ≤ 10000 := by
    intro l
    induction l with
    | nil => intro z h1 h2; exact ⟨h1, h2⟩
    | cons op rest ih =>
      intro z h1 h2
      rw [List.foldl_cons]
      obtain ⟨g1, g2⟩ := applyOp_integral_bounds z op h1 h2
      exact ih _ g1 g2
  exact key ops _ (by norm_num [ZoneWrapper.init]) (by norm_num [ZoneWrapper.init])

/-- C7 counterexample: an observation with the `current_temperature`
attribute *missing* is not discarded: `float(attrs.get(key, 0.0))`
substitutes 0.0 and the observation is applied, mutating the zone (its
stored room temperature drops from 18 °C to 0 °C). -/
theorem C7_counterexample :
    c7zone.current_temp = 18 ∧
    (c7zone.update_from_state c7obsMissing 100).current_temp = 0 ∧
    c7zone.update_from_state c7obsMissing 100 ≠ c7zone := by
  have h2 : (c7zone.update_from_state c7obsMissing 100).current_temp = 0 := by
    simp only [ZoneWrapper.update_from_state, parseObservation, parseTemp,
      c7obsMissing]
    norm_num [applySetpointPhase, applyPidPhase, timeDelta, c7zone,
      ZoneWrapper.init]
  refine ⟨rfl, h2, ?_⟩
  intro hcon
  rw [hcon] at h2
  norm_num [c7zone, ZoneWrapper.init] at h2

/-- C7 (amended): an observation with an *unparsable* temperature value is
discarded atomically — the zone state is fully unchanged — and the
supervisor's event handler still proceeds to recompute and command from the
unchanged zone set. -/
theorem C7_malformed_discard (z : ZoneWrapper) (s : RawState) (now : ℚ)
    (h : parseObservation s = none) :
    z.update_from_state s now = z ∧
    ∀ (m : MasterController) (eid : String),
      m.handleClimateEvent eid s now = m.calculate_and_command now := by
  have h1 : ∀ z' : ZoneWrapper, z'.update_from_state s now = z' := by
    intro z'
    simp [ZoneWrapper.update_from_state, h]
  refine ⟨h1 z, ?_⟩
  intro m eid
  have hmap : m.zones.map
      (fun z' => if z'.entity_id == eid then z'.update_from_state s now else z')
      = m.zones := by
    have hfun : (fun z' : ZoneWrapper =>
        if z'.entity_id == eid then z'.update_from_state s now else z') =
        fun z' => z' := by
      funext z'
      by_cases hc : z'.entity_id == eid <;> simp [hc, h1 z']
    rw [hfun]
    simp
  simp only [MasterController.handleClimateEvent, hmap]

/-- C7 witness: the discard behavior at a concrete unparsable observation
on a one-zone supervisor. -/
theorem C7_malformed_discard_witness :
    c7zone.update_from_state c7obsJunk 50 = c7zone ∧
    c7m.handleClimateEvent "climate.z7" c7obsJunk 50 =
      c7m.calculate_and_command 50 :=
  ⟨(C7_malformed_discard c7zone c7obsJunk 50 rfl).1,
   (C7_malformed_discard c7zone c7obsJunk 50 rfl).2 c7m "climate.z7"⟩

/-- Inserting a zone whose id is not yet a key of the dict appends it. -/
theorem dictInsert_of_not_mem (zs : List ZoneWrapper) (z : ZoneWrapper)
    (h : ∀ w ∈ zs, w.entity_id ≠ z.entity_id) :
    dictInsert zs z = zs ++ [z] := by
  have ha : zs.any (fun w => w.entity_id == z.entity_id) = false := by
    rw [List.any_eq_false]
    intro w hw
    simpa using h w hw
  simp [dictInsert, ha]

/-- The constructor's fold over configurations with pairwise-distinct ids
appends one zone per entry, preserving ids and order. -/
theorem foldl_dictInsert_ids (cfgs : List ZoneConfig) :
    ∀ acc : List ZoneWrapper,
      (∀ c ∈ cfgs, ∀ w ∈ acc, w.entity_id ≠ c.entity_id) →
      cfgs.Pairwise (fun a b => a.entity_id ≠ b.entity_id) →
      (cfgs.foldl (fun zs c => dictInsert zs (mkZone c)) acc).map
          (fun z => z.entity_id) =
        acc.map (fun z => z.entity_id) ++ cfgs.map (fun c => c.entity_id) := by
  induction cfgs with
  | nil => intro acc _ _; simp
  | cons c cs ih =>
    intro acc hdisj hpw
    rw [List.foldl_cons]
    rw [dictInsert_of_not_mem acc (mkZone c)
      (fun w hw => hdisj c (List.mem_cons_self c cs) w hw)]
    rw [ih (acc ++ [mkZone c]) ?_ (List.Pairwise.of_cons hpw)]
    · have hid : (mkZone c).entity_id = c.entity_id := rfl
      simp [hid]
    · intro c' hc' w hw
      rcases List.mem_append.mp hw with hmem | hmem
      · exact hdisj c' (List.mem_cons_of_mem c hc') w hmem
      · have hw' : w = mkZone c := by simpa using hmem
        subst hw'
        have := (List.pairwise_cons.mp hpw).1 c' hc'
        simpa using this

/-- C8 counterexample: the core constructor does *not* reject an empty zone
set — `MasterController.__init__` applied to `[]` succeeds and produces a
supervisor with zero zones. -/
theorem C8_counterexample :
    (MasterController.init []).zones = [] ∧
    (MasterController.init []).monitored_entity_ids = [] := ⟨rfl, rfl⟩

/-- C8 (amended): the empty-configuration rejection lives in the platform
setup (`async_setup_platform` returns without building a controller), not
in the core constructor; for every non-empty configuration list with
pairwise-distinct entity ids, setup succeeds and builds exactly one Zone
Controller per entry, in order. -/
theorem C8_empty_config_rejection :
    setupPlatform [] = none ∧
    ∀ cfgs : List ZoneConfig, cfgs ≠ [] →
      cfgs.Pairwise (fun a b => a.entity_id ≠ b.entity_id) →
      ∃ m, setupPlatform cfgs = some m ∧
        m.zones.map (fun z => z.entity_id) = cfgs.map (fun c => c.entity_id) ∧
        m.zones.length = cfgs.length := by
  refine ⟨rfl, ?_⟩
  intro cfgs hne hpw
  refine ⟨MasterController.init cfgs, ?_, ?_, ?_⟩
  · simp [setupPlatform, hne]
  · have h := foldl_dictInsert_ids cfgs [] (by simp) hpw
    simpa [MasterController.init] using h
  · have h := foldl_dictInsert_ids cfgs [] (by simp) hpw
    have h2 : (MasterController.init cfgs).zones.map (fun z => z.entity_id) =
        cfgs.map (fun c => c.entity_id) := by
      simpa [MasterController.init] using h
    have h3 := congrArg List.length h2
    simpa using h3

/-- C8 witness: a concrete two-entry configuration with distinct ids is
accepted and yields exactly two zones with the configured ids. -/
theorem C8_empty_config_rejection_witness :
    ∃ m, setupPlatform c8cfgs = some m ∧
      m.zones.map (fun z => z.entity_id) = c8cfgs.map (fun c => c.entity_id) ∧
      m.zones.length = c8cfgs.length :=
  C8_empty_config_rejection.2 c8cfgs (by simp [c8cfgs]) (by decide)

/-- The winner-selection loop preserves `maxStateOk`. -/
theorem findMaxGo_ok (now : ℚ) (l : List ZoneWrapper) :
    ∀ st : MaxState, maxStateOk now st → maxStateOk now (findMaxGo now l st) := by
  induction l with
  | nil => intro st h; exact h
  | cons z rest ih =>
    intro st h
    simp only [findMaxGo]
    apply ih
    split_ifs with hlt
    · refine ⟨le_of_lt (lt_of_le_of_lt h.1 hlt), ?_⟩
      intro w hw
      have hzw : z = w := by simpa using hw
      subst hzw
      exact ⟨rfl, lt_of_le_of_lt h.1 hlt, rfl⟩
    · exact h

/-- `findMax` always yields a `maxStateOk` state. -/
theorem findMax_ok (now : ℚ) (l : List ZoneWrapper) :
    maxStateOk now (findMax now l) :=
  findMaxGo_ok now l ⟨none, 0, 0⟩ ⟨le_refl 0, fun _ hw => Option.noConfusion hw⟩

/-- When no zone beats the running maximum, the loop leaves the
accumulator unchanged. -/
theorem findMaxGo_const (now : ℚ) (l : List ZoneWrapper) :
    ∀ st : MaxState, (∀ z ∈ l, z.get_demand_metric ≤ st.max_demand) →
      findMaxGo now l st = st := by
  induction l with
  | nil => intro st _; rfl
  | cons z rest ih =>
    intro st h
    simp only [findMaxGo]
    rw [if_neg (not_lt.mpr (h z (List.mem_cons_self z rest)))]
    exact ih st (fun w hw => h w (List.mem_cons_of_mem z hw))

/-- The actuator write always emits a value in
`[MIN_FLOW_TEMP, MAX_FLOW_TEMP]`. -/
theorem setFlow_bounds (y : ℚ) :
    MIN_FLOW_TEMP ≤ setOpenthermFlowTemp y ∧
      setOpenthermFlowTemp y ≤ MAX_FLOW_TEMP :=
  ⟨le_max_left _ _,
   max_le (by norm_num [MIN_FLOW_TEMP, MAX_FLOW_TEMP]) (min_le_left _ _)⟩

/-- The actuator write is the identity on already-clamped values. -/
theorem setFlow_of_clamped (x : ℚ) :
    setOpenthermFlowTemp (max MIN_FLOW_TEMP (min MAX_FLOW_TEMP x)) =
      max MIN_FLOW_TEMP (min MAX_FLOW_TEMP x) := by
  unfold setOpenthermFlowTemp
  rw [min_eq_right
      (max_le (by norm_num [MIN_FLOW_TEMP, MAX_FLOW_TEMP]) (min_le_left _ _)),
    max_eq_right (le_max_left _ _)]

/-- Emitting `MIN_FLOW_TEMP` leaves it unchanged. -/
theorem setFlow_min : setOpenthermFlowTemp MIN_FLOW_TEMP = MIN_FLOW_TEMP := by
  norm_num [setOpenthermFlowTemp, MIN_FLOW_TEMP, MAX_FLOW_TEMP]

/-- C1: every demanding zone with priority > 0.5 is eligible; a demanding
zone with priority ≤ 0.5 is eligible iff at least 2 low-priority zones are
demanding; with exactly one low-priority demanding zone and no
high-priority demanding zone the emitted command is `MIN_FLOW_TEMP`. -/
theorem C1_two_tier_eligibility (m : MasterController) (now : ℚ) :
    (∀ z ∈ m.zones, z.is_demanding_heat = true → (1 : ℚ)/2 < z.priority →
      z ∈ boilerDemandEligible m) ∧
    (∀ z ∈ m.zones, z.is_demanding_heat = true → z.priority ≤ (1 : ℚ)/2 →
      (z ∈ boilerDemandEligible m ↔ 2 ≤ (lowPriorityZones m).length)) ∧
    (highPriorityZones m = [] → (lowPriorityZones m).length = 1 →
      (m.calculate_and_command now).1 = MIN_FLOW_TEMP) := by
  refine ⟨?_, ?_, ?_⟩
  · intro z hz hd hp
    have hp' : (2 : ℚ)⁻¹ < z.priority := by rwa [one_div] at hp
    have hzh : z ∈ highPriorityZones m := by
      simp [highPriorityZones, List.mem_filter, hz, hd, hp']
    unfold boilerDemandEligible
    split_ifs with hlen
    · exact List.mem_append_left _ hzh
    · exact hzh
  · intro z hz hd hp
    have hp' : z.priority ≤ (2 : ℚ)⁻¹ := by rwa [one_div] at hp
    constructor
    · intro hel
      by_contra hlen
      push_neg at hlen
      unfold boilerDemandEligible at hel
      rw [if_neg (not_le.mpr hlen)] at hel
      have hzp := (List.mem_filter.mp hel).2
      simp at hzp
      exact absurd hzp.2 (not_lt.mpr hp')
    · intro hlen
      have hnp : ¬ ((2 : ℚ)⁻¹ < z.priority) := not_lt.mpr hp'
      have hzl : z ∈ lowPriorityZones m := by
        simp [lowPriorityZones, List.mem_filter, hz, hd, hnp]
      unfold boilerDemandEligible
      rw [if_pos hlen]
      exact List.mem_append_right _ hzl
  · intro hh hl
    have helig : boilerDemandEligible m = [] := by
      unfold boilerDemandEligible
      rw [if_neg (by rw [hl]; norm_num), hh]
    have hnone : (findMax now (boilerDemandEligible m)).max_demand_zone = none := by
      rw [helig]; rfl
    simp only [MasterController.calculate_and_command, hnone]
    exact setFlow_min

/-- C1 witness: a supervisor whose only zone is low-priority (0.25) and
demanding emits the boiler-off command. -/
theorem C1_two_tier_eligibility_witness :
    (c1m.calculate_and_command 0).1 = MIN_FLOW_TEMP := by
  have hd : c1zone.is_demanding_heat = true := rfl
  have hple : c1zone.priority ≤ (2 : ℚ)⁻¹ := by
    norm_num [c1zone, ZoneWrapper.init]
  have hnp : ¬ ((2 : ℚ)⁻¹ < c1zone.priority) := not_lt.mpr hple
  have hh : highPriorityZones c1m = [] := by
    simp [highPriorityZones, c1m, List.filter_cons, hd, hnp, hple]
  have hl : (lowPriorityZones c1m).length = 1 := by
    simp [lowPriorityZones, c1m, List.filter_cons, hd, hnp, hple]
  exact (C1_two_tier_eligibility c1m 0).2.2 hh hl

/-- C2: with a winner the emitted command is
`clamp(40 + winner.pid_output(now - winner.last_update_time), 5, 80)`
(delta 0 when the winner's timestamp is unset); with no winner it is
`MIN_FLOW_TEMP`; in every case it lies within `[5, 80]`. -/
theorem C2_bounded_command (m : MasterController) (now : ℚ) :
    (∀ w, (findMax now (boilerDemandEligible m)).max_demand_zone = some w →
      (m.calculate_and_command now).1 =
        max MIN_FLOW_TEMP (min MAX_FLOW_TEMP
          (40 + (w.calculate_pid_output (timeDelta now w)).1))) ∧
    ((findMax now (boilerDemandEligible m)).max_demand_zone = none →
      (m.calculate_and_command now).1 = MIN_FLOW_TEMP) ∧
    MIN_FLOW_TEMP ≤ (m.calculate_and_command now).1 ∧
    (m.calculate_and_command now).1 ≤ MAX_FLOW_TEMP := by
  have hok := findMax_ok now (boilerDemandEligible m)
  refine ⟨?_, ?_, ?_⟩
  · intro w hw
    have hcmd : (m.calculate_and_command now).1 =
        setOpenthermFlowTemp (max MIN_FLOW_TEMP (min MAX_FLOW_TEMP
          (40 + (w.calculate_pid_output
            ((findMax now (boilerDemandEligible m)).time_delta)).1))) := by
      simp only [MasterController.calculate_and_command, hw]
    rw [hcmd, (hok.2 w hw).2.2, setFlow_of_clamped]
  · intro hn
    simp only [MasterController.calculate_and_command, hn]
    exact setFlow_min
  · cases hmd : (findMax now (boilerDemandEligible m)).max_demand_zone with
    | some w =>
      have hcmd : (m.calculate_and_command now).1 =
          setOpenthermFlowTemp (max MIN_FLOW_TEMP (min MAX_FLOW_TEMP
            (40 + (w.calculate_pid_output
              ((findMax now (boilerDemandEligible m)).time_delta)).1))) := by
        simp only [MasterController.calculate_and_command, hmd]
      rw [hcmd]
      exact setFlow_bounds _
    | none =>
      have hcmd : (m.calculate_and_command now).1 =
          setOpenthermFlowTemp MIN_FLOW_TEMP := by
        simp only [MasterController.calculate_and_command, hmd]
      rw [hcmd]
      exact setFlow_bounds _

/-- C2 witness: a single demanding high-priority zone (error 3 °C) wins and
the command equals the clamped `40 + pid_output` at that zone. -/
theorem C2_bounded_command_witness :
    (c2m.calculate_and_command 100).1 =
      max MIN_FLOW_TEMP (min MAX_FLOW_TEMP
        (40 + (c2zone.calculate_pid_output (timeDelta 100 c2zone)).1)) := by
  have hd : c2zone.is_demanding_heat = true := rfl
  have hp2 : (2 : ℚ)⁻¹ < c2zone.priority := by
    norm_num [c2zone, ZoneWrapper.init]
  have hnle : ¬ (c2zone.priority ≤ (2 : ℚ)⁻¹) := not_le.mpr hp2
  have helig : boilerDemandEligible c2m = [c2zone] := by
    simp [boilerDemandEligible, highPriorityZones, lowPriorityZones, c2m,
      List.filter_cons, hd, hp2, hnle]
  have hm : c2zone.get_demand_metric = 3 := by
    norm_num [ZoneWrapper.get_demand_metric, c2zone, ZoneWrapper.init]
  have hfind : (findMax 100 (boilerDemandEligible c2m)).max_demand_zone =
      some c2zone := by
    rw [helig]
    simp only [findMax, findMaxGo, hm]
    norm_num
  exact (C2_bounded_command c2m 100).1 c2zone hfind

/-- C10: a winner is selected only when its demand metric is strictly
positive; when every eligible zone's metric is ≤ 0 there is no winner and
the emitted command is `MIN_FLOW_TEMP`. -/
theorem C10_strict_positive_winner (m : MasterController) (now : ℚ) :
    (∀ w, (findMax now (boilerDemandEligible m)).max_demand_zone = some w →
      0 < w.get_demand_metric) ∧
    ((∀ z ∈ boilerDemandEligible m, z.get_demand_metric ≤ 0) →
      (findMax now (boilerDemandEligible m)).max_demand_zone = none ∧
      (m.calculate_and_command now).1 = MIN_FLOW_TEMP) := by
  have hok := findMax_ok now (boilerDemandEligible m)
  refine ⟨?_, ?_⟩
  · intro w hw
    exact (hok.2 w hw).2.1
  · intro hall
    have hconst : findMax now (boilerDemandEligible m) = ⟨none, 0, 0⟩ :=
      findMaxGo_const now (boilerDemandEligible m) ⟨none, 0, 0⟩
        (fun z hz => hall z hz)
    have hnone : (findMax now (boilerDemandEligible m)).max_demand_zone = none := by
      rw [hconst]
    refine ⟨hnone, ?_⟩
    simp only [MasterController.calculate_and_command, hnone]
    exact setFlow_min

/-- C10 witness: a zone reporting heating mode with error −1 °C has metric
0, so no winner exists and the boiler-off command is emitted. -/
theorem C10_strict_positive_winner_witness :
    (findMax 0 (boilerDemandEligible c10m)).max_demand_zone = none ∧
    (c10m.calculate_and_command 0).1 = MIN_FLOW_TEMP := by
  have hd : c10zone.is_demanding_heat = true := rfl
  have hp2 : (2 : ℚ)⁻¹ < c10zone.priority := by
    norm_num [c10zone, ZoneWrapper.init]
  have hnle : ¬ (c10zone.priority ≤ (2 : ℚ)⁻¹) := not_le.mpr hp2
  have helig : boilerDemandEligible c10m = [c10zone] := by
    simp [boilerDemandEligible, highPriorityZones, lowPriorityZones, c10m,
      List.filter_cons, hd, hp2, hnle]
  have hm : c10zone.get_demand_metric = 0 := by
    norm_num [ZoneWrapper.get_demand_metric, c10zone, ZoneWrapper.init]
  refine (C10_strict_positive_winner c10m 0).2 ?_
  rw [helig]
  intro z hz
  have hz' : z = c10zone := by simpa using hz
  rw [hz', hm]

end DonController
